import Mathlib

/-!
Shallow embedding of `src/utils/ftp-fuse-mount.py` (class `FtpFuseOperations`).

The FUSE layer and the ftplib client are external collaborators; they are
modelled by an oracle (`FtpWorld`) supplying the outcome of every protocol
call that the source issues.  Each public operation of the class is
translated into a pure Lean function returning its result together with a
trace of protocol events (session opened, protocol command issued, session
closed via `quit`).  Machine-level details that no operation inspects
(socket buffers, the concrete wire format) stay inside the oracle.
-/

set_option autoImplicit false
set_option linter.unusedVariables false

/-- A Python `bytes` value: a list of byte values. -/
abbrev Bytes := List Nat

instance {ε α : Type} [DecidableEq ε] [DecidableEq α] : DecidableEq (Except ε α) := fun x y =>
  match x, y with
  | .ok a, .ok b =>
    if h : a = b then .isTrue (by rw [h])
    else .isFalse (fun hc => h (by cases hc; rfl))
  | .error a, .error b =>
    if h : a = b then .isTrue (by rw [h])
    else .isFalse (fun hc => h (by cases hc; rfl))
  | .ok _, .error _ => .isFalse (fun hc => by cases hc)
  | .error _, .ok _ => .isFalse (fun hc => by cases hc)

/-- The `errno` constants the source raises through `FuseOSError`. -/
inductive Errno where
  | ENOENT
  | EACCES
  | EIOErr
  | ECONNREFUSED
  deriving DecidableEq, Repr

/-- The Python exceptions distinguished by the source's `except` clauses:
`ftplib.error_perm` (carrying its message string, as `str(e)`),
`FuseOSError` (a subclass of `OSError`, hence of `Exception`),
`AttributeError` (raised when an attribute such as `bytes.encode` is
missing), and any other `Exception`. -/
inductive PyExn where
  | errorPerm (msg : String)
  | fuseOSError (e : Errno)
  | attributeError
  | otherError
  deriving DecidableEq, Repr

/-- `sub.isPrefixOf l || ...` scan: Boolean substring test on `List Char`,
modelling Python's `sub in s`. -/
def hasInfix (sub : List Char) : List Char → Bool
  | [] => sub.isEmpty
  | c :: rest => sub.isPrefixOf (c :: rest) || hasInfix sub rest

/-- Python's `sub in s` on strings. -/
def containsSub (sub s : String) : Bool :=
  hasInfix sub.data s.data

/-- Protocol events recorded by the embedding: a session successfully
opened (`connect` + `login`), a protocol command issued, a session closed
by `quit`. -/
inductive Ev where
  | opened
  | closed
  | cmd (c : String)
  deriving DecidableEq, Repr

/-- Python-dict lookup on an association list (first match; keys of every
dict built here are unique). -/
def dlookup {α : Type} : List (String × α) → String → Option α
  | [], _ => none
  | (k', v) :: d, k => if k' = k then some v else dlookup d k

/-- Python-dict assignment `d[k] = v`: replace the value in place when the
key is present (keeping insertion order), append otherwise. -/
def dinsert {α : Type} : List (String × α) → String → α → List (String × α)
  | [], k, v => [(k, v)]
  | (k', v') :: d, k, v => if k' = k then (k, v) :: d else (k', v') :: dinsert d k v

/-- Python whitespace for `str.split(None, ...)` and `str.strip()`
(ASCII whitespace; the protocol listings contain no other). -/
def pyIsSpace (c : Char) : Bool :=
  c = ' ' || c = '\t' || c = '\n' || c = '\r' || c = Char.ofNat 11 || c = Char.ofNat 12

/-- Worker for Python's `str.split(None, maxsplit)`: skip leading
whitespace; stop on an empty remainder; once `maxsplit` separators are
consumed the remainder (leading whitespace stripped) is the final field.
The fuel argument bounds recursion; each step consumes at least one
character. -/
def pysplitAux : Nat → List Char → Nat → List (List Char)
  | 0, _, _ => []
  | fuel + 1, s, maxsplit =>
    let s' := s.dropWhile pyIsSpace
    if s'.isEmpty then []
    else if maxsplit = 0 then [s']
    else
      (s'.takeWhile (fun c => !pyIsSpace c)) ::
        pysplitAux fuel (s'.dropWhile (fun c => !pyIsSpace c)) (maxsplit - 1)

/-- Python's `s.split(None, maxsplit)`. -/
def pysplit (s : String) (maxsplit : Nat) : List String :=
  (pysplitAux (s.data.length + 1) s.data maxsplit).map (fun l => String.mk l)

/-- Python's `s.split()` (no maxsplit: a string of length n needs at most
n splits). -/
def pysplitAll (s : String) : List String :=
  pysplit s s.data.length

/-- `not line.strip()`: true iff the line is empty or all whitespace. -/
def isBlank (s : String) : Bool :=
  s.data.all pyIsSpace

/-- Decimal digits of a token, as used by `int(...)` on a digit string. -/
def digitsToNat (l : List Char) : Nat :=
  l.foldl (fun n c => n * 10 + (c.toNat - 48)) 0

/-- Python's `str.isdigit()` on the ASCII tokens of a listing: non-empty
and all decimal digits. -/
def strIsDigit (s : String) : Bool :=
  !s.data.isEmpty && s.data.all Char.isDigit

/-- `int(s)` on a digit string. -/
def strToNat (s : String) : Nat :=
  digitsToNat s.data

/-- Python's `int(s)` for a clean token: optional sign then decimal
digits; `none` models the `ValueError` path. -/
def pyInt (s : String) : Option Int :=
  match s.data with
  | [] => none
  | '+' :: rest =>
    if rest.isEmpty then none
    else if rest.all Char.isDigit then some (digitsToNat rest) else none
  | '-' :: rest =>
    if rest.isEmpty then none
    else if rest.all Char.isDigit then some (-(digitsToNat rest : Int)) else none
  | l => if l.all Char.isDigit then some (digitsToNat l) else none

/-- Python's `s.startswith(pre)`. -/
def pyStartsWith (s pre : String) : Bool :=
  pre.data.isPrefixOf s.data

/-- `stat.S_IFDIR`. -/
def S_IFDIR : Nat := 0o040000

/-- `stat.S_IFREG`. -/
def S_IFREG : Nat := 0o100000

/-- One value of the `files[name]` dict built by `_ftp_list_to_files`.
The three timestamps are `int(datetime.now().timestamp())`; the current
time is a parameter `now` of the embedding. -/
structure FileInfo where
  is_dir : Bool
  size : Nat
  permissions : String
  mode : Nat
  nlink : Nat
  mtime : Nat
  ctime : Nat
  atime : Nat
  deriving DecidableEq, Repr

/-- One iteration of the loop in `_ftp_list_to_files`: skip blank lines
(`if not line.strip(): continue`), split with `line.split(None, 8)`, skip
lines with fewer than 9 parts, otherwise build the entry from parts 0
(permissions), 4 (size) and 8 (name). -/
def parseListLine (now : Nat) (line : String) : Option (String × FileInfo) :=
  if isBlank line then none
  else
    let parts := pysplit line 8
    if parts.length < 9 then none
    else
      let permissions := parts.getD 0 ""
      let sizeTok := parts.getD 4 ""
      let name := parts.getD 8 ""
      let size := if strIsDigit sizeTok then strToNat sizeTok else 0
      let is_dir := pyStartsWith permissions "d"
      some (name,
        { is_dir := is_dir
          size := size
          permissions := permissions
          mode := if is_dir then S_IFDIR else S_IFREG
          nlink := if is_dir then 2 else 1
          mtime := now
          ctime := now
          atime := now })

/-- The accumulation loop of `_ftp_list_to_files` over the listing lines,
with the `files` dict as accumulator. -/
def ftpFilesAux (now : Nat) (acc : List (String × FileInfo)) : List String → List (String × FileInfo)
  | [] => acc
  | line :: rest =>
    match parseListLine now line with
    | none => ftpFilesAux now acc rest
    | some (name, info) => ftpFilesAux now (dinsert acc name info) rest

/-- `_ftp_list_to_files(ftp_listing)`. -/
def ftpListToFiles (now : Nat) (listing : List String) : List (String × FileInfo) :=
  ftpFilesAux now [] listing

/-- The entry produced by the last line of the listing that parses to the
given name (specification device for the dict's last-wins semantics). -/
def lastParsed (now : Nat) (name : String) : List String → Option FileInfo
  | [] => none
  | line :: rest =>
    match lastParsed now name rest with
    | some info => some info
    | none =>
      match parseListLine now line with
      | some p => if p.1 = name then some p.2 else none
      | none => none

/-- The stat-like dict returned by `getattr`. -/
structure AttrRecord where
  st_mode : Nat
  st_nlink : Nat
  st_size : Int
  st_ctime : Nat
  st_mtime : Nat
  st_atime : Nat
  deriving DecidableEq, Repr

/-- A value delivered to the `retrbinary` callback: `ftplib` always
delivers `bytes`, but the distinction is kept because the source calls a
`str` method on it. -/
inductive PyData where
  | bytes (b : Bytes)
  | str (s : String)

/-- Attribute access `data.encode('utf-8')`: defined on `str`, raises
`AttributeError` on `bytes` (a `bytes` object has no `encode` method). -/
def pyEncodeUtf8 : PyData → Except PyExn Bytes
  | .str s => .ok (s.toUTF8.toList.map (fun b => b.toNat))
  | .bytes _ => .error .attributeError

/-- The `store_data` callback of `read`, folded over the chunks delivered
by `retrbinary`: `content.extend(data.encode('utf-8'))` where `data` is a
`bytes` chunk. -/
def runStoreData : Bytes → List Bytes → Except PyExn Bytes
  | content, [] => .ok content
  | content, c :: cs =>
    match pyEncodeUtf8 (.bytes c) with
    | .ok enc => runStoreData (content ++ enc) cs
    | .error e => .error e

/-- Python slicing `content[offset:offset + size]` for non-negative
offset and size (FUSE supplies non-negative values). -/
def pySlice (content : Bytes) (offset size : Nat) : Bytes :=
  (content.drop offset).take size

/-- Oracle for every protocol call the source issues, plus the current
time.  `connectLogin` covers `ftp.connect` + `ftp.login`; `parseTs`
models `datetime.strptime(tok, ...).timestamp()` on the MDTM payload
(`none` is the raising path). `retr` is the list of binary chunks that
`retrbinary` delivers to the callback (or the protocol failure). -/
structure FtpWorld where
  connectLogin : Except PyExn Unit
  cwd : String → Except PyExn Unit
  listLines : Except PyExn (List String)
  sizeCmd : String → Except PyExn String
  mdtmCmd : String → Except PyExn String
  parseTs : String → Option Nat
  retr : String → Except PyExn (List Bytes)
  stor : String → Bytes → Except PyExn Unit
  delete : String → Except PyExn Unit
  now : Nat

/-- `_get_ftp_connection`: on any connect/login failure it prints and
raises `FuseOSError(errno.ECONNREFUSED)` — which, being an `Exception`,
is itself catchable by the callers' `except Exception` clauses. -/
def getFtpConnection (w : FtpWorld) : Except PyExn Unit :=
  match w.connectLogin with
  | .ok _ => .ok ()
  | .error _ => .error (.fuseOSError .ECONNREFUSED)

/-- The `except` clauses of `readdir`: `error_perm` with `'550' in str(e)`
gives ENOENT, with `'530' in str(e)` gives EACCES, otherwise EIO; any
other `Exception` gives EIO. -/
def readdirHandler : PyExn → Errno
  | .errorPerm msg =>
    if containsSub "550" msg then .ENOENT
    else if containsSub "530" msg then .EACCES
    else .EIOErr
  | _ => .EIOErr

/-- The `except` clauses of `getattr`: same `error_perm` triage as
`readdir`, but any other `Exception` gives ENOENT. -/
def getattrHandler : PyExn → Errno
  | .errorPerm msg =>
    if containsSub "550" msg then .ENOENT
    else if containsSub "530" msg then .EACCES
    else .EIOErr
  | _ => .ENOENT

/-- The `except` clauses of `read`: `error_perm` with `'550'` gives
ENOENT, any other `error_perm` (including `'530'`) gives EIO; any other
`Exception` gives EIO. -/
def readHandler : PyExn → Errno
  | .errorPerm msg => if containsSub "550" msg then .ENOENT else .EIOErr
  | _ => .EIOErr

/-- The `except` clauses of `write`: `error_perm` with `'550'` gives
EACCES, any other `error_perm` gives EIO; any other `Exception` gives
EIO. -/
def writeHandler : PyExn → Errno
  | .errorPerm msg => if containsSub "550" msg then .EACCES else .EIOErr
  | _ => .EIOErr

/-- The `except` clauses of `unlink`: `error_perm` with `'550'` gives
ENOENT, any other `error_perm` gives EACCES; any other `Exception` gives
EIO. -/
def unlinkHandler : PyExn → Errno
  | .errorPerm msg => if containsSub "550" msg then .ENOENT else .EACCES
  | _ => .EIOErr

namespace FtpFuseOperations

/-- `readdir(path)`: cache hit returns the cached names; otherwise open a
session, `cwd(path)` unless the path is `'/'`, `retrlines('LIST', ...)`,
`quit()`, parse, prepend `['.', '..']`, cache and return.  The result
carries the possibly updated `_dir_cache` and the event trace. -/
def readdir (w : FtpWorld) (cache : List (String × List String)) (path : String) :
    (Except Errno (List String) × List (String × List String)) × List Ev :=
  match dlookup cache path with
  | some names => ((.ok names, cache), [])
  | none =>
    match getFtpConnection w with
    | .error e => ((.error (readdirHandler e), cache), [])
    | .ok _ =>
      match (if path = "/" then Except.ok () else w.cwd path) with
      | .error e =>
        ((.error (readdirHandler e), cache),
          Ev.opened :: (if path = "/" then [] else [Ev.cmd "CWD"]))
      | .ok _ =>
        match w.listLines with
        | .error e =>
          ((.error (readdirHandler e), cache),
            Ev.opened :: (if path = "/" then [] else [Ev.cmd "CWD"]) ++ [Ev.cmd "LIST"])
        | .ok listing =>
          let fileNames := "." :: ".." :: (ftpListToFiles w.now listing).map Prod.fst
          ((.ok fileNames, dinsert cache path fileNames),
            Ev.opened :: (if path = "/" then [] else [Ev.cmd "CWD"]) ++
              [Ev.cmd "LIST", Ev.closed])

/-- `getattr(path)`: the root path returns a fixed directory record with
no protocol traffic.  Otherwise a session is opened, SIZE and MDTM are
probed (each probe's failures are swallowed by its own bare `except`,
with defaults 0 and "now"), `quit()` runs, and a regular-file record is
returned. -/
def getattr (w : FtpWorld) (path : String) : Except Errno AttrRecord × List Ev :=
  if path = "/" then
    (.ok
      { st_mode := S_IFDIR ||| 0o755
        st_nlink := 2
        st_size := 0
        st_ctime := w.now
        st_mtime := w.now
        st_atime := w.now }, [])
  else
    match getFtpConnection w with
    | .error e => (.error (getattrHandler e), [])
    | .ok _ =>
      let file_size : Int :=
        match w.sizeCmd path with
        | .error _ => 0
        | .ok resp =>
          if pyStartsWith resp "213" then
            match pyInt ((pysplitAll resp).getD 1 "") with
            | some n => n
            | none => 0
          else 0
      let mtime : Nat :=
        match w.mdtmCmd path with
        | .error _ => w.now
        | .ok resp =>
          if pyStartsWith resp "213" then
            match w.parseTs ((pysplitAll resp).getD 1 "") with
            | some t => t
            | none => w.now
          else w.now
      (.ok
        { st_mode := S_IFREG ||| 0o644
          st_nlink := 1
          st_size := file_size
          st_ctime := mtime
          st_mtime := mtime
          st_atime := mtime },
        [Ev.opened, Ev.cmd "SIZE", Ev.cmd "MDTM", Ev.closed])

/-- `read(path, size, offset)`: open a session, `retrbinary('RETR path',
store_data)` accumulating into `content`, `quit()`, then return
`bytes(content[offset:offset + size])`. -/
def read (w : FtpWorld) (path : String) (size offset : Nat) :
    Except Errno Bytes × List Ev :=
  match getFtpConnection w with
  | .error e => (.error (readHandler e), [])
  | .ok _ =>
    match w.retr path with
    | .error e => (.error (readHandler e), [Ev.opened, Ev.cmd "RETR"])
    | .ok chunks =>
      match runStoreData [] chunks with
      | .error e => (.error (readHandler e), [Ev.opened, Ev.cmd "RETR"])
      | .ok content =>
        (.ok (pySlice content offset size), [Ev.opened, Ev.cmd "RETR", Ev.closed])

/-- `write(path, data, offset)`: open a session, `storbinary('STOR path',
BytesIO(data))`, `quit()`, return `len(data)`.  The offset argument is
never used; a successful store replaces the remote object with exactly
`data` (the remote store is threaded through as a dict). -/
def write (w : FtpWorld) (remote : List (String × Bytes)) (path : String)
    (data : Bytes) (offset : Nat) :
    (Except Errno Nat × List (String × Bytes)) × List Ev :=
  match getFtpConnection w with
  | .error e => ((.error (writeHandler e), remote), [])
  | .ok _ =>
    match w.stor path data with
    | .error e => ((.error (writeHandler e), remote), [Ev.opened, Ev.cmd "STOR"])
    | .ok _ =>
      ((.ok data.length, dinsert remote path data), [Ev.opened, Ev.cmd "STOR", Ev.closed])

/-- `unlink(path)`: open a session, `delete(path)`, `quit()`. -/
def unlink (w : FtpWorld) (path : String) : Except Errno Unit × List Ev :=
  match getFtpConnection w with
  | .error e => (.error (unlinkHandler e), [])
  | .ok _ =>
    match w.delete path with
    | .error e => (.error (unlinkHandler e), [Ev.opened, Ev.cmd "DELE"])
    | .ok _ => (.ok (), [Ev.opened, Ev.cmd "DELE", Ev.closed])

end FtpFuseOperations

/-- A server-side model of `RETR` against a remote object store: a stored
non-empty object is delivered as a single binary chunk (objects here fit
in one `ftplib` block), an empty object delivers no chunk, a missing
object fails with a 550 response. -/
def serveRetr (remote : List (String × Bytes)) (path : String) :
    Except PyExn (List Bytes) :=
  match dlookup remote path with
  | some b => .ok (if b.isEmpty then [] else [b])
  | none => .error (.errorPerm "550 No such file or directory")

/-- A benign oracle used to instantiate theorems at concrete inputs. -/
def dummyWorld : FtpWorld where
  connectLogin := .ok ()
  cwd := fun _ => .ok ()
  listLines := .ok []
  sizeCmd := fun _ => .error .otherError
  mdtmCmd := fun _ => .error .otherError
  parseTs := fun _ => none
  retr := fun _ => .ok []
  stor := fun _ _ => .ok ()
  delete := fun _ => .ok ()
  now := 0

/-- Oracle whose retrieve answers come from a remote object store. -/
def worldWithRemote (remote : List (String × Bytes)) : FtpWorld :=
  { dummyWorld with retr := serveRetr remote }

/-- The bytes of `b"hello"`. -/
def helloBytes : Bytes := [104, 101, 108, 108, 111]

/-- Oracle where `cwd` fails with a 550 response. -/
def cwdFailWorld : FtpWorld :=
  { dummyWorld with cwd := fun _ => .error (.errorPerm "550 No such directory") }

/-- Oracle where the transport connection fails. -/
def connFailWorld : FtpWorld :=
  { dummyWorld with connectLogin := .error .otherError }

/-- Oracle where retrieve delivers a single one-byte chunk. -/
def oneChunkWorld : FtpWorld :=
  { dummyWorld with retr := fun _ => .ok [[104]] }

/-- Oracle where STOR fails with a 550 response. -/
def storFail550World : FtpWorld :=
  { dummyWorld with stor := fun _ _ => .error (.errorPerm "550 Permission denied") }

/-- Oracle where RETR fails with a 530 response. -/
def retrFail530World : FtpWorld :=
  { dummyWorld with retr := fun _ => .error (.errorPerm "530 Not logged in") }

/-- Oracle where DELE fails with a 551 response. -/
def deleteFail551World : FtpWorld :=
  { dummyWorld with delete := fun _ => .error (.errorPerm "551 Requested action aborted") }

/-- Oracle whose LIST answer contains a duplicate name. -/
def dupListingWorld : FtpWorld :=
  { dummyWorld with
      listLines := .ok
        ["-rw-r--r-- 1 u g 3 Jan 01 00:00 a",
         "-rw-r--r-- 1 u g 7 Jan 01 00:00 a"] }

theorem dlookup_dinsert_self {α : Type} (d : List (String × α)) (k : String) (v : α) :
    dlookup (dinsert d k v) k = some v := by
  induction d with
  | nil => simp [dinsert, dlookup]
  | cons p d ih =>
    obtain ⟨k', v'⟩ := p
    by_cases h : k' = k
    · simp [dinsert, h, dlookup]
    · simp [dinsert, h, dlookup, ih]

theorem dlookup_dinsert_ne {α : Type} (d : List (String × α)) (k k₀ : String) (v : α)
    (h : k₀ ≠ k) : dlookup (dinsert d k v) k₀ = dlookup d k₀ := by
  induction d with
  | nil => simp [dinsert, dlookup, Ne.symm h]
  | cons p d ih =>
    obtain ⟨k', v'⟩ := p
    by_cases hk : k' = k
    · subst hk
      simp [dinsert, dlookup, Ne.symm h]
    · simp only [dinsert, if_neg hk, dlookup]
      by_cases hk0 : k' = k₀ <;> simp [hk0, ih]

theorem mem_keys_dinsert {α : Type} (d : List (String × α)) (k a : String) (v : α) :
    a ∈ (dinsert d k v).map Prod.fst ↔ a ∈ d.map Prod.fst ∨ a = k := by
  induction d with
  | nil => simp [dinsert]
  | cons p d ih =>
    obtain ⟨k', v'⟩ := p
    by_cases h : k' = k
    · subst h
      simp [dinsert, List.mem_cons]
      tauto
    · simp [dinsert, h, List.mem_cons, ih]
      tauto

theorem keys_nodup_dinsert {α : Type} (d : List (String × α)) (k : String) (v : α)
    (h : (d.map Prod.fst).Nodup) : ((dinsert d k v).map Prod.fst).Nodup := by
  induction d with
  | nil => simp [dinsert]
  | cons p d ih =>
    obtain ⟨k', v'⟩ := p
    simp only [List.map_cons, List.nodup_cons] at h
    by_cases hk : k' = k
    · subst hk
      simpa [dinsert, List.nodup_cons] using h
    · simp only [dinsert, if_neg hk, List.map_cons, List.nodup_cons]
      refine ⟨fun hc => ?_, ih h.2⟩
      rcases (mem_keys_dinsert d k k' v).1 hc with hm | hm
      · exact h.1 hm
      · exact hk hm

theorem dlookup_isSome_iff {α : Type} (d : List (String × α)) (k : String) :
    (dlookup d k).isSome = true ↔ k ∈ d.map Prod.fst := by
  induction d with
  | nil => simp [dlookup]
  | cons p d ih =>
    obtain ⟨k', v'⟩ := p
    by_cases h : k' = k
    · subst h
      simp [dlookup]
    · simp only [dlookup, if_neg h, List.map_cons, List.mem_cons, ih]
      constructor
      · exact Or.inr
      · rintro (rfl | hm)
        · exact absurd rfl h
        · exact hm

theorem dlookup_ftpFilesAux (now : Nat) (listing : List String) :
    ∀ (acc : List (String × FileInfo)) (name : String),
      dlookup (ftpFilesAux now acc listing) name =
        match lastParsed now name listing with
        | some info => some info
        | none => dlookup acc name := by
  induction listing with
  | nil => intro acc name; simp [ftpFilesAux, lastParsed]
  | cons line rest ih =>
    intro acc name
    cases hp : parseListLine now line with
    | none =>
      simp only [ftpFilesAux, hp, lastParsed, ih]
      cases lastParsed now name rest <;> simp [hp]
    | some p =>
      obtain ⟨n, info⟩ := p
      simp only [ftpFilesAux, hp, lastParsed, ih]
      cases hl : lastParsed now name rest with
      | some j => simp
      | none =>
        simp only [hp]
        by_cases hn : n = name
        · subst hn
          simp [dlookup_dinsert_self]
        · simp [hn, dlookup_dinsert_ne _ _ _ _ (fun hc => hn hc.symm)]

theorem keys_nodup_ftpFilesAux (now : Nat) (listing : List String) :
    ∀ (acc : List (String × FileInfo)), (acc.map Prod.fst).Nodup →
      ((ftpFilesAux now acc listing).map Prod.fst).Nodup := by
  induction listing with
  | nil => intro acc h; simpa [ftpFilesAux] using h
  | cons line rest ih =>
    intro acc h
    cases hp : parseListLine now line with
    | none => simpa [ftpFilesAux, hp] using ih acc h
    | some p =>
      obtain ⟨n, info⟩ := p
      simpa [ftpFilesAux, hp] using ih (dinsert acc n info) (keys_nodup_dinsert acc n info h)

theorem lastParsed_isSome_iff (now : Nat) (name : String) (listing : List String) :
    (lastParsed now name listing).isSome = true ↔
      ∃ line ∈ listing, ∃ info, parseListLine now line = some (name, info) := by
  induction listing with
  | nil => simp [lastParsed]
  | cons line rest ih =>
    cases hl : lastParsed now name rest with
    | some j =>
      simp only [lastParsed, hl, Option.isSome_some, true_iff]
      obtain ⟨l, hm, info, hpar⟩ := ih.1 (by simp [hl])
      exact ⟨l, List.mem_cons_of_mem _ hm, info, hpar⟩
    | none =>
      have hrest : ¬ ∃ l ∈ rest, ∃ info, parseListLine now l = some (name, info) := by
        intro hc
        have h2 := ih.2 hc
        rw [hl] at h2
        simp at h2
      cases hp : parseListLine now line with
      | none =>
        simp only [lastParsed, hl, hp, Option.isSome_none, Bool.false_eq_true, false_iff]
        rintro ⟨l, hm, info, hpar⟩
        rcases List.mem_cons.1 hm with rfl | hm
        · rw [hp] at hpar; cases hpar
        · exact hrest ⟨l, hm, info, hpar⟩
      | some p =>
        obtain ⟨n, info⟩ := p
        by_cases hn : n = name
        · subst hn
          simp only [lastParsed, hl, hp]
          refine ⟨fun _ => ⟨line, List.mem_cons_self line rest, info, hp⟩, fun _ => ?_⟩
          simp
        · simp only [lastParsed, hl, hp]
          simp only [if_neg hn, Option.isSome_none, Bool.false_eq_true, false_iff]
          rintro ⟨l, hm, info', hpar⟩
          rcases List.mem_cons.1 hm with rfl | hm
          · rw [hp] at hpar
            exact hn (by cases hpar; rfl)
          · exact hrest ⟨l, hm, info', hpar⟩

/-- C1: for every oracle, remote store, path, data and offset, a
successful `write` (connection and STOR succeed) returns `len(data)` and
leaves the remote object at `path` equal to exactly the supplied data,
regardless of the object's previous content; the offset argument is
ignored: the whole run is identical for any two offsets. -/
theorem write_replaces_whole_object (w : FtpWorld) (remote : List (String × Bytes))
    (path : String) (data : Bytes) (offset offset' : Nat)
    (hc : w.connectLogin = .ok ()) (hs : w.stor path data = .ok ()) :
    (FtpFuseOperations.write w remote path data offset).1.1 = .ok data.length ∧
    dlookup (FtpFuseOperations.write w remote path data offset).1.2 path = some data ∧
    FtpFuseOperations.write w remote path data offset = FtpFuseOperations.write w remote path data offset' := by
  refine ⟨?_, ?_, rfl⟩
  · simp [FtpFuseOperations.write, getFtpConnection, hc, hs]
  · simp [FtpFuseOperations.write, getFtpConnection, hc, hs, dlookup_dinsert_self]

/-- Witness for C1: overwriting a three-byte object with `[9]` at offset
4 stores exactly `[9]` and reports one byte written. -/
theorem write_replaces_whole_object_witness :
    (FtpFuseOperations.write dummyWorld [("/data/x", [1, 2, 3])] "/data/x" [9] 4).1.1 = .ok 1 ∧
    dlookup (FtpFuseOperations.write dummyWorld [("/data/x", [1, 2, 3])] "/data/x" [9] 4).1.2 "/data/x" =
      some [9] ∧
    FtpFuseOperations.write dummyWorld [("/data/x", [1, 2, 3])] "/data/x" [9] 4 =
      FtpFuseOperations.write dummyWorld [("/data/x", [1, 2, 3])] "/data/x" [9] 0 :=
  write_replaces_whole_object dummyWorld [("/data/x", [1, 2, 3])] "/data/x" [9] 4 0 rfl rfl

/-- C3: when retrieval delivers chunks that the callback survives,
producing a buffer `content` of length L, `read` returns the Python
slice `content[offset:offset+size]`; its length is
`max 0 (min size (L - offset))` and it is empty whenever `offset ≥ L`. -/
theorem read_returns_clamped_slice (w : FtpWorld) (path : String)
    (size offset : Nat) (chunks : List Bytes) (content : Bytes)
    (hc : w.connectLogin = .ok ()) (hr : w.retr path = .ok chunks)
    (hs : runStoreData [] chunks = .ok content) :
    (FtpFuseOperations.read w path size offset).1 = .ok (pySlice content offset size) ∧
    ((pySlice content offset size).length : Int) =
      max 0 (min (size : Int) ((content.length : Int) - (offset : Int))) ∧
    (content.length ≤ offset → pySlice content offset size = []) := by
  refine ⟨?_, ?_, ?_⟩
  · simp [FtpFuseOperations.read, getFtpConnection, hc, hr, hs]
  · have hlen : (pySlice content offset size).length = min size (content.length - offset) := by
      simp [pySlice]
    rw [hlen]
    rcases Nat.le_total offset content.length with h | h <;>
      · simp only [Nat.min_def, min_def, max_def]
        split_ifs <;> omega
  · intro h
    simp [pySlice, List.drop_eq_nil_of_le h]

/-- Witness for C3 on an empty retrieved buffer with offset 3 and size 5. -/
theorem read_returns_clamped_slice_witness :
    (FtpFuseOperations.read dummyWorld "/f" 5 3).1 = .ok (pySlice [] 3 5) ∧
    ((pySlice [] 3 5).length : Int) =
      max 0 (min (5 : Int) (((([] : Bytes).length) : Int) - (3 : Int))) ∧
    (([] : Bytes).length ≤ 3 → pySlice [] 3 5 = []) :=
  read_returns_clamped_slice dummyWorld "/f" 5 3 [] [] rfl rfl rfl

/-- C5: `getattr` of the root path returns, for every oracle, the fixed
directory record — mode `S_IFDIR | 0o755` (= 0o40755), link count 2,
size 0 — with an empty protocol trace: no session is opened and no
protocol command is issued. -/
theorem getattr_root_fixed_record (w : FtpWorld) :
    FtpFuseOperations.getattr w "/" =
      (.ok { st_mode := S_IFDIR ||| 0o755, st_nlink := 2, st_size := 0,
             st_ctime := w.now, st_mtime := w.now, st_atime := w.now }, []) ∧
    (S_IFDIR ||| 0o755 : Nat) = 0o40755 :=
  ⟨rfl, by decide⟩

/-- C10: whenever the protocol retrieve succeeds and delivers at least
one binary chunk, `read` fails with EIO — the `store_data` callback
calls `.encode('utf-8')` on the `bytes` chunk, raising `AttributeError`
— and `read` succeeds only when no chunk at all is delivered, in which
case it returns the empty byte sequence for every size and offset. -/
theorem read_fails_on_any_delivered_chunk (w : FtpWorld) (path : String)
    (size offset : Nat) (chunks : List Bytes)
    (hc : w.connectLogin = .ok ()) (hr : w.retr path = .ok chunks) :
    (chunks ≠ [] → (FtpFuseOperations.read w path size offset).1 = .error Errno.EIOErr) ∧
    (chunks = [] → (FtpFuseOperations.read w path size offset).1 = .ok []) := by
  constructor
  · intro hne
    obtain ⟨c, cs, rfl⟩ := List.exists_cons_of_ne_nil hne
    simp [FtpFuseOperations.read, getFtpConnection, hc, hr, runStoreData, pyEncodeUtf8, readHandler]
  · rintro rfl
    simp [FtpFuseOperations.read, getFtpConnection, hc, hr, runStoreData, pySlice]

/-- Witness for C10: one delivered chunk makes `read` fail with EIO. -/
theorem read_fails_on_any_delivered_chunk_witness :
    (FtpFuseOperations.read oneChunkWorld "/f" 4096 0).1 = .error Errno.EIOErr :=
  (read_fails_on_any_delivered_chunk oneChunkWorld "/f" 4096 0 [[104]] rfl rfl).1
    (by decide)

/-- C2 (failing input): `write("/data/x", b"hello", 0)` succeeds and the
remote object becomes `b"hello"`, but the immediately following
`read("/data/x", 5, 0)` does not return `b"hello"`: the `retrbinary`
callback applies `.encode('utf-8')` to the delivered `bytes` chunk,
which raises `AttributeError`, translated to EIO. -/
theorem write_then_read_fails_with_io_error :
    (FtpFuseOperations.write (worldWithRemote []) [] "/data/x" helloBytes 0).1 =
      (.ok 5, [("/data/x", helloBytes)]) ∧
    (FtpFuseOperations.read (worldWithRemote [("/data/x", helloBytes)]) "/data/x" 5 0).1 =
      .error Errno.EIOErr ∧
    (Except.error Errno.EIOErr : Except Errno Bytes) ≠ .ok helloBytes := by
  refine ⟨rfl, rfl, by decide⟩

/-- C9 (divergence): when session establishment fails, the
`FuseOSError(ECONNREFUSED)` raised inside `_get_ftp_connection` is itself
an `Exception`, so each public operation's own catch-all swallows it:
the caller receives EIO (ENOENT from `getattr`), never ECONNREFUSED. -/
theorem connection_failure_masked_as_generic_error (w : FtpWorld)
    (cache : List (String × List String)) (path : String)
    (remote : List (String × Bytes)) (data : Bytes) (size offset : Nat) (e : PyExn)
    (hcache : dlookup cache path = none) (hc : w.connectLogin = .error e)
    (hroot : path ≠ "/") :
    (FtpFuseOperations.readdir w cache path).1.1 = .error Errno.EIOErr ∧
    (FtpFuseOperations.getattr w path).1 = .error Errno.ENOENT ∧
    (FtpFuseOperations.read w path size offset).1 = .error Errno.EIOErr ∧
    (FtpFuseOperations.write w remote path data offset).1.1 = .error Errno.EIOErr ∧
    (FtpFuseOperations.unlink w path).1 = .error Errno.EIOErr ∧
    Errno.EIOErr ≠ Errno.ECONNREFUSED ∧ Errno.ENOENT ≠ Errno.ECONNREFUSED := by
  refine ⟨?_, ?_, ?_, ?_, ?_, by decide, by decide⟩
  · simp [FtpFuseOperations.readdir, hcache, getFtpConnection, hc, readdirHandler]
  · simp [FtpFuseOperations.getattr, hroot, getFtpConnection, hc, getattrHandler]
  · simp [FtpFuseOperations.read, getFtpConnection, hc, readHandler]
  · simp [FtpFuseOperations.write, getFtpConnection, hc, writeHandler]
  · simp [FtpFuseOperations.unlink, getFtpConnection, hc, unlinkHandler]

/-- Witness for C9 at a concrete failing connection. -/
theorem connection_failure_masked_witness :
    (FtpFuseOperations.readdir connFailWorld [] "/x").1.1 = .error Errno.EIOErr ∧
    (FtpFuseOperations.getattr connFailWorld "/x").1 = .error Errno.ENOENT ∧
    (FtpFuseOperations.read connFailWorld "/x" 0 0).1 = .error Errno.EIOErr ∧
    (FtpFuseOperations.write connFailWorld [] "/x" [] 0).1.1 = .error Errno.EIOErr ∧
    (FtpFuseOperations.unlink connFailWorld "/x").1 = .error Errno.EIOErr ∧
    Errno.EIOErr ≠ Errno.ECONNREFUSED ∧ Errno.ENOENT ≠ Errno.ECONNREFUSED :=
  connection_failure_masked_as_generic_error connFailWorld [] "/x" [] [] 0 0
    .otherError rfl rfl (by decide)

/-- C4 (counterexample): the claimed uniform translation table is false
on the code: inside `write` a 550-class protocol failure maps to EACCES,
not NotFound; inside `read` a 530-class failure maps to EIO, not
AccessDenied; inside `unlink` an unrecognized protocol failure maps to
EACCES, not IOError; and `getattr`'s translation maps an unrecognized
protocol failure to EIO, not NotFound. -/
theorem error_translation_claim_false :
    (FtpFuseOperations.write storFail550World [] "/p" [] 0).1.1 = .error Errno.EACCES ∧
    Errno.EACCES ≠ Errno.ENOENT ∧
    (FtpFuseOperations.read retrFail530World "/p" 1 0).1 = .error Errno.EIOErr ∧
    Errno.EIOErr ≠ Errno.EACCES ∧
    (FtpFuseOperations.unlink deleteFail551World "/p").1 = .error Errno.EACCES ∧
    Errno.EACCES ≠ Errno.EIOErr ∧
    getattrHandler (.errorPerm "551 Requested action aborted") = Errno.EIOErr ∧
    Errno.EIOErr ≠ Errno.ENOENT := by
  decide

/-- C4 (amended): the translation is per-operation. A 550-class response
gives NotFound in `readdir`, `getattr`, `read` and `unlink` but
AccessDenied in `write`; a 530-class (and not 550) response gives
AccessDenied in `readdir`, `getattr` and `unlink` but IOError in `read`
and `write`; any other protocol failure gives IOError except in `unlink`
(AccessDenied); a non-protocol exception gives IOError except in
`getattr` (NotFound). -/
theorem error_translation_per_operation (msg : String) (e : PyExn) :
    (containsSub "550" msg = true →
      readdirHandler (.errorPerm msg) = .ENOENT ∧
      getattrHandler (.errorPerm msg) = .ENOENT ∧
      readHandler (.errorPerm msg) = .ENOENT ∧
      writeHandler (.errorPerm msg) = .EACCES ∧
      unlinkHandler (.errorPerm msg) = .ENOENT) ∧
    (containsSub "550" msg = false → containsSub "530" msg = true →
      readdirHandler (.errorPerm msg) = .EACCES ∧
      getattrHandler (.errorPerm msg) = .EACCES ∧
      readHandler (.errorPerm msg) = .EIOErr ∧
      writeHandler (.errorPerm msg) = .EIOErr ∧
      unlinkHandler (.errorPerm msg) = .EACCES) ∧
    (containsSub "550" msg = false → containsSub "530" msg = false →
      readdirHandler (.errorPerm msg) = .EIOErr ∧
      getattrHandler (.errorPerm msg) = .EIOErr ∧
      readHandler (.errorPerm msg) = .EIOErr ∧
      writeHandler (.errorPerm msg) = .EIOErr ∧
      unlinkHandler (.errorPerm msg) = .EACCES) ∧
    ((∀ m, e ≠ .errorPerm m) →
      readdirHandler e = .EIOErr ∧ getattrHandler e = .ENOENT ∧
      readHandler e = .EIOErr ∧ writeHandler e = .EIOErr ∧
      unlinkHandler e = .EIOErr) := by
  refine ⟨fun h5 => ?_, fun h5 h3 => ?_, fun h5 h3 => ?_, fun hne => ?_⟩
  · simp [readdirHandler, getattrHandler, readHandler, writeHandler, unlinkHandler, h5]
  · simp [readdirHandler, getattrHandler, readHandler, writeHandler, unlinkHandler, h5, h3]
  · simp [readdirHandler, getattrHandler, readHandler, writeHandler, unlinkHandler, h5, h3]
  · cases e with
    | errorPerm m => exact absurd rfl (hne m)
    | fuseOSError e =>
      simp [readdirHandler, getattrHandler, readHandler, writeHandler, unlinkHandler]
    | attributeError =>
      simp [readdirHandler, getattrHandler, readHandler, writeHandler, unlinkHandler]
    | otherError =>
      simp [readdirHandler, getattrHandler, readHandler, writeHandler, unlinkHandler]

/-- Witness for C4's amended table at a 550 message and a non-protocol
exception. -/
theorem error_translation_per_operation_witness :
    (readdirHandler (.errorPerm "550 gone") = .ENOENT ∧
     getattrHandler (.errorPerm "550 gone") = .ENOENT ∧
     readHandler (.errorPerm "550 gone") = .ENOENT ∧
     writeHandler (.errorPerm "550 gone") = .EACCES ∧
     unlinkHandler (.errorPerm "550 gone") = .ENOENT) ∧
    (readdirHandler .otherError = .EIOErr ∧ getattrHandler .otherError = .ENOENT ∧
     readHandler .otherError = .EIOErr ∧ writeHandler .otherError = .EIOErr ∧
     unlinkHandler .otherError = .EIOErr) :=
  ⟨(error_translation_per_operation "550 gone" .otherError).1 (by decide),
   (error_translation_per_operation "550 gone" .otherError).2.2.2
     (fun m hm => by cases hm)⟩

/-- C6: the listing parser skips any line splitting into fewer than 9
whitespace-delimited fields while continuing with the remaining lines; a
line with 9 fields yields an entry whose kind is directory exactly when
the permissions field starts with `d` and whose size is the numeric
value of the fifth field, or 0 when that field is non-numeric; and the
scenario line parses to entry `users`, directory, size 4096. -/
theorem list_parser_fields_and_skip :
    (∀ (now : Nat) (line : String) (rest : List String),
        (pysplit line 8).length < 9 →
        ftpListToFiles now (line :: rest) = ftpListToFiles now rest) ∧
    (∀ (now : Nat) (line : String),
        isBlank line = false → 9 ≤ (pysplit line 8).length →
        parseListLine now line =
          some ((pysplit line 8).getD 8 "",
            { is_dir := pyStartsWith ((pysplit line 8).getD 0 "") "d"
              size := if strIsDigit ((pysplit line 8).getD 4 "")
                      then strToNat ((pysplit line 8).getD 4 "") else 0
              permissions := (pysplit line 8).getD 0 ""
              mode := if pyStartsWith ((pysplit line 8).getD 0 "") "d"
                      then S_IFDIR else S_IFREG
              nlink := if pyStartsWith ((pysplit line 8).getD 0 "") "d" then 2 else 1
              mtime := now, ctime := now, atime := now })) ∧
    parseListLine 0 "drwxr-xr-x 2 root root 4096 Jan 01 00:00 users" =
      some ("users",
        { is_dir := true, size := 4096, permissions := "drwxr-xr-x",
          mode := S_IFDIR, nlink := 2, mtime := 0, ctime := 0, atime := 0 }) := by
  refine ⟨?_, ?_, by decide⟩
  · intro now line rest h
    have hp : parseListLine now line = none := by
      by_cases hb : isBlank line
      · simp [parseListLine, hb]
      · simp [parseListLine, hb, h]
    simp [ftpListToFiles, ftpFilesAux, hp]
  · intro now line hb h9
    simp [parseListLine, hb, Nat.not_lt.mpr h9]

/-- Witness for C6: a malformed line is skipped while the rest is
parsed, and a 9-field line with a non-numeric size field parses with
size 0. -/
theorem list_parser_fields_and_skip_witness :
    (ftpListToFiles 0 ["x y", "drwxr-xr-x 2 root root 4096 Jan 01 00:00 users"] =
      ftpListToFiles 0 ["drwxr-xr-x 2 root root 4096 Jan 01 00:00 users"]) ∧
    parseListLine 7 "-rw-r--r-- 1 u g 12x Jan 01 00:00 f.txt" =
      some ("f.txt",
        { is_dir := false, size := 0, permissions := "-rw-r--r--",
          mode := S_IFREG, nlink := 1, mtime := 7, ctime := 7, atime := 7 }) :=
  ⟨list_parser_fields_and_skip.1 0 "x y"
      ["drwxr-xr-x 2 root root 4096 Jan 01 00:00 users"] (by decide),
   (list_parser_fields_and_skip.2.1 7 "-rw-r--r-- 1 u g 12x Jan 01 00:00 f.txt"
      (by decide) (by decide)).trans (by decide)⟩

/-- C7: on the uncached success path, `readdir` returns `['.', '..']`
followed by the parsed names, so `.` and `..` are always present and
synthesized (they are prepended regardless of the listing); the parsed
names contain each remote name exactly once (`Nodup`), a name appears
iff some listing line parses to it, and the dict entry recorded for each
name is that of the last listing line parsing to it (last occurrence
wins). -/
theorem readdir_unique_names_last_wins (w : FtpWorld)
    (cache : List (String × List String)) (path : String) (listing : List String)
    (hcache : dlookup cache path = none) (hc : w.connectLogin = .ok ())
    (hcwd : path = "/" ∨ w.cwd path = .ok ()) (hl : w.listLines = .ok listing) :
    (FtpFuseOperations.readdir w cache path).1.1 =
      .ok ("." :: ".." :: (ftpListToFiles w.now listing).map Prod.fst) ∧
    "." ∈ "." :: ".." :: (ftpListToFiles w.now listing).map Prod.fst ∧
    ".." ∈ "." :: ".." :: (ftpListToFiles w.now listing).map Prod.fst ∧
    ((ftpListToFiles w.now listing).map Prod.fst).Nodup ∧
    (∀ name, name ∈ (ftpListToFiles w.now listing).map Prod.fst ↔
        ∃ line ∈ listing, ∃ info, parseListLine w.now line = some (name, info)) ∧
    (∀ name, dlookup (ftpListToFiles w.now listing) name = lastParsed w.now name listing) := by
  refine ⟨?_, by simp, by simp,
    keys_nodup_ftpFilesAux w.now listing [] (by simp), ?_, ?_⟩
  · rcases hcwd with rfl | hcwd
    · simp [FtpFuseOperations.readdir, hcache, getFtpConnection, hc, hl]
    · by_cases hroot : path = "/"
      · subst hroot
        simp [FtpFuseOperations.readdir, hcache, getFtpConnection, hc, hl]
      · simp [FtpFuseOperations.readdir, hcache, getFtpConnection, hc, hroot, hcwd, hl]
  · intro name
    rw [← lastParsed_isSome_iff, ← dlookup_isSome_iff, ftpListToFiles,
      dlookup_ftpFilesAux]
    cases lastParsed w.now name listing <;> simp [dlookup]
  · intro name
    rw [ftpListToFiles, dlookup_ftpFilesAux]
    cases lastParsed w.now name listing <;> simp [dlookup]

/-- Witness for C7: a listing naming `a` twice yields `['.', '..', 'a']`
and the dict keeps the entry of the second line. -/
theorem readdir_unique_names_last_wins_witness :
    (FtpFuseOperations.readdir dupListingWorld [] "/d").1.1 = .ok [".", "..", "a"] ∧
    dlookup (ftpListToFiles 0
        ["-rw-r--r-- 1 u g 3 Jan 01 00:00 a",
         "-rw-r--r-- 1 u g 7 Jan 01 00:00 a"]) "a" =
      lastParsed 0 "a"
        ["-rw-r--r-- 1 u g 3 Jan 01 00:00 a",
         "-rw-r--r-- 1 u g 7 Jan 01 00:00 a"] := by
  have h := readdir_unique_names_last_wins dupListingWorld [] "/d"
    ["-rw-r--r-- 1 u g 3 Jan 01 00:00 a", "-rw-r--r-- 1 u g 7 Jan 01 00:00 a"]
    rfl rfl (Or.inr rfl) rfl
  exact ⟨h.1.trans (by decide), h.2.2.2.2.2 "a"⟩

/-- C8 (counterexample): the claim that every operation closes its
session on all exit paths is false: with an open session, a failing
`cwd` makes `readdir` raise through its error translation without ever
calling `quit` — the trace records an opened session and no close. -/
theorem readdir_session_leak_on_cwd_failure :
    (FtpFuseOperations.readdir cwdFailWorld [] "/x").1.1 = .error Errno.ENOENT ∧
    Ev.opened ∈ (FtpFuseOperations.readdir cwdFailWorld [] "/x").2 ∧
    Ev.closed ∉ (FtpFuseOperations.readdir cwdFailWorld [] "/x").2 := by
  decide

/-- C8 (amended): a session is closed only on the success path. When
session establishment fails, no session is opened (empty trace); on
`readdir`'s success path the session is opened and closed; but when
`cwd` or the LIST retrieval fails after the session is opened, the
session is left open (no close event). `getattr` closes its session on
every path that opens one, because its per-probe failures are swallowed
before `quit`. -/
theorem session_close_only_on_success_path (w : FtpWorld)
    (cache : List (String × List String)) (path : String)
    (hcache : dlookup cache path = none) :
    ((∃ e, w.connectLogin = Except.error e) →
      (FtpFuseOperations.readdir w cache path).2 = [] ∧
      (FtpFuseOperations.getattr w path).2 = [] ∧
      (FtpFuseOperations.unlink w path).2 = []) ∧
    (w.connectLogin = Except.ok () →
      ((path = "/" ∨ w.cwd path = Except.ok ()) →
        ∀ listing, w.listLines = Except.ok listing →
          Ev.opened ∈ (FtpFuseOperations.readdir w cache path).2 ∧
          Ev.closed ∈ (FtpFuseOperations.readdir w cache path).2) ∧
      (path ≠ "/" → (∃ e, w.cwd path = Except.error e) →
        Ev.opened ∈ (FtpFuseOperations.readdir w cache path).2 ∧
        Ev.closed ∉ (FtpFuseOperations.readdir w cache path).2) ∧
      ((path = "/" ∨ w.cwd path = Except.ok ()) →
        (∃ e, w.listLines = Except.error e) →
        Ev.opened ∈ (FtpFuseOperations.readdir w cache path).2 ∧
        Ev.closed ∉ (FtpFuseOperations.readdir w cache path).2) ∧
      (path ≠ "/" → Ev.closed ∈ (FtpFuseOperations.getattr w path).2)) := by
  constructor
  · rintro ⟨e, he⟩
    refine ⟨?_, ?_, ?_⟩
    · simp [FtpFuseOperations.readdir, hcache, getFtpConnection, he]
    · by_cases hroot : path = "/"
      · simp [FtpFuseOperations.getattr, hroot]
      · simp [FtpFuseOperations.getattr, hroot, getFtpConnection, he]
    · simp [FtpFuseOperations.unlink, getFtpConnection, he]
  · intro hc
    refine ⟨?_, ?_, ?_, ?_⟩
    · intro hcwd listing hl
      rcases hcwd with rfl | hcwd
      · simp [FtpFuseOperations.readdir, hcache, getFtpConnection, hc, hl]
      · by_cases hroot : path = "/"
        · subst hroot
          simp [FtpFuseOperations.readdir, hcache, getFtpConnection, hc, hl]
        · simp [FtpFuseOperations.readdir, hcache, getFtpConnection, hc, hroot, hcwd, hl]
    · rintro hroot ⟨e, he⟩
      simp [FtpFuseOperations.readdir, hcache, getFtpConnection, hc, hroot, he]
    · rintro hcwd ⟨e, he⟩
      rcases hcwd with rfl | hcwd
      · simp [FtpFuseOperations.readdir, hcache, getFtpConnection, hc, he]
      · by_cases hroot : path = "/"
        · subst hroot
          simp [FtpFuseOperations.readdir, hcache, getFtpConnection, hc, he]
        · simp [FtpFuseOperations.readdir, hcache, getFtpConnection, hc, hroot, hcwd, he]
    · intro hroot
      simp [FtpFuseOperations.getattr, hroot, getFtpConnection, hc]

/-- Witness for C8's amended statement: with a failing `cwd` on a
non-root path the session is opened and never closed. -/
theorem session_close_only_on_success_path_witness :
    Ev.opened ∈ (FtpFuseOperations.readdir cwdFailWorld [] "/y").2 ∧
    Ev.closed ∉ (FtpFuseOperations.readdir cwdFailWorld [] "/y").2 :=
  ((session_close_only_on_success_path cwdFailWorld [] "/y" rfl).2 rfl).2.1
    (by decide) ⟨.errorPerm "550 No such directory", rfl⟩
